import Mathlib

set_option autoImplicit false

namespace LambdaDecorators

/-- Python values as they flow through the decorators of lambda_decorators.py:
None, booleans, integers, strings, lists, string-keyed dictionaries kept in
insertion order (as Python dicts are), and sets.  A set is the stock example
of a value that json.dumps cannot serialize. -/
inductive PyVal where
  | pynone
  | pybool (b : Bool)
  | pyint (n : Int)
  | pystr (s : String)
  | pylist (xs : List PyVal)
  | pydict (kvs : List (String × PyVal))
  | pyset (xs : List PyVal)

/-- Lookup in a Python dict: the value stored at the (unique) matching key. -/
def pyGet : List (String × PyVal) → String → Option PyVal
  | [], _ => Option.none
  | (k, v) :: rest, key => if k = key then some v else pyGet rest key

/-- Python dict item assignment d[k] = v: replace the value in place when the
key is present, append a new entry otherwise. -/
def pySet : List (String × PyVal) → String → PyVal → List (String × PyVal)
  | [], key, v => [(key, v)]
  | (k, w) :: rest, key, v =>
    if k = key then (k, v) :: rest else (k, w) :: pySet rest key v

/-- Python dict.setdefault(k, d): return the stored value when the key is
present; otherwise insert d under k and return d. -/
def pySetdefault (kvs : List (String × PyVal)) (key : String) (d : PyVal) :
    PyVal × List (String × PyVal) :=
  match pyGet kvs key with
  | some v => (v, kvs)
  | Option.none => (d, kvs ++ [(key, d)])

/-- Invocation context supplied by the runtime; the decorators only read the
request identifier aws_request_id. -/
structure Context where
  aws_request_id : String

/-- Outcome of running a piece of Python code: a returned value, or an
uncaught exception identified by its class name and message. -/
inductive PyResult where
  | val (v : PyVal)
  | exn (kind : String) (msg : String)

/-- JSON rendering of a string: the model covers strings with no characters
that would need escaping, which is every string the claims exercise. -/
def jsonQuote (s : String) : String := "\"" ++ s ++ "\""

mutual
/-- Model of json.dumps on the PyVal grammar.  Serialization of None,
booleans, integers, strings, lists and dicts succeeds with the textual JSON
rendering (default separators, as in Python); a set anywhere in the value
makes json.dumps raise TypeError, modelled as the error message it carries. -/
def json_dumps : PyVal → Except String String
  | PyVal.pynone => Except.ok "null"
  | PyVal.pybool true => Except.ok "true"
  | PyVal.pybool false => Except.ok "false"
  | PyVal.pyint n => Except.ok (toString n)
  | PyVal.pystr s => Except.ok (jsonQuote s)
  | PyVal.pylist xs =>
    match json_dumps_elems xs with
    | Except.ok parts => Except.ok ("[" ++ String.intercalate ", " parts ++ "]")
    | Except.error e => Except.error e
  | PyVal.pydict kvs =>
    match json_dumps_pairs kvs with
    | Except.ok parts =>
      Except.ok ("\x7b" ++ String.intercalate ", " parts ++ "\x7d")
    | Except.error e => Except.error e
  | PyVal.pyset _ => Except.error "Object of type set is not JSON serializable"

/-- Serialize every element of a list, propagating the first failure. -/
def json_dumps_elems : List PyVal → Except String (List String)
  | [] => Except.ok []
  | x :: xs =>
    match json_dumps x with
    | Except.error e => Except.error e
    | Except.ok s =>
      match json_dumps_elems xs with
      | Except.error e => Except.error e
      | Except.ok rest => Except.ok (s :: rest)

/-- Serialize every key/value pair of a dict, propagating the first failure. -/
def json_dumps_pairs : List (String × PyVal) → Except String (List String)
  | [] => Except.ok []
  | (k, v) :: kvs =>
    match json_dumps v with
    | Except.error e => Except.error e
    | Except.ok s =>
      match json_dumps_pairs kvs with
      | Except.error e => Except.error e
      | Except.ok rest => Except.ok ((jsonQuote k ++ ": " ++ s) :: rest)
end

/-- Whitespace characters that JSON allows between tokens. -/
def isJsonWs (c : Char) : Bool :=
  c = ' ' || c = '\t' || c = '\n' || c = '\r'

/-- Drop leading JSON whitespace. -/
def skipWs : List Char → List Char
  | [] => []
  | c :: cs => if isJsonWs c then skipWs cs else c :: cs

/-- Match the remaining characters of a keyword literal, returning the rest of
the input on success. -/
def dropLit : List Char → List Char → Option (List Char)
  | [], cs => some cs
  | _ :: _, [] => Option.none
  | l :: ls, c :: cs => if c = l then dropLit ls cs else Option.none

/-- Characters of a JSON string up to the closing quote.  The model covers
strings without escape sequences; a backslash makes the parse fail. -/
def parseStringChars : List Char → Option (List Char × List Char)
  | [] => Option.none
  | c :: cs =>
    if c = '"' then some ([], cs)
    else if c = '\\' then Option.none
    else
      match parseStringChars cs with
      | some (out, rest) => some (c :: out, rest)
      | Option.none => Option.none

/-- Longest leading run of decimal digits. -/
def takeDigits : List Char → List Char × List Char
  | [] => ([], [])
  | c :: cs =>
    if c.isDigit then
      let (ds, rest) := takeDigits cs
      (c :: ds, rest)
    else ([], c :: cs)

/-- Numeric value of a digit run. -/
def digitsVal (ds : List Char) : Nat :=
  ds.foldl (fun a c => a * 10 + (c.toNat - 48)) 0

mutual
/-- Model of json.loads value parsing, on the JSON fragment without floats
and without string escapes (every input the claims exercise).  The fuel
argument only bounds recursion depth; json_loads supplies ample fuel. -/
def parseValue : Nat → List Char → Option (PyVal × List Char)
  | 0, _ => Option.none
  | Nat.succ fuel, cs =>
    match skipWs cs with
    | [] => Option.none
    | c :: rest =>
      if c = 'n' then
        match dropLit ['u', 'l', 'l'] rest with
        | some r => some (PyVal.pynone, r)
        | Option.none => Option.none
      else if c = 't' then
        match dropLit ['r', 'u', 'e'] rest with
        | some r => some (PyVal.pybool true, r)
        | Option.none => Option.none
      else if c = 'f' then
        match dropLit ['a', 'l', 's', 'e'] rest with
        | some r => some (PyVal.pybool false, r)
        | Option.none => Option.none
      else if c = '"' then
        match parseStringChars rest with
        | some (out, r) => some (PyVal.pystr (String.mk out), r)
        | Option.none => Option.none
      else if c = '-' then
        match takeDigits rest with
        | ([], _) => Option.none
        | (ds, r) => some (PyVal.pyint (-(digitsVal ds : Int)), r)
      else if c.isDigit then
        let (ds, r) := takeDigits (c :: rest)
        some (PyVal.pyint (digitsVal ds), r)
      else if c = '[' then
        match skipWs rest with
        | ']' :: more => some (PyVal.pylist [], more)
        | cs2 =>
          match parseElems fuel cs2 with
          | some (xs, r) => some (PyVal.pylist xs, r)
          | Option.none => Option.none
      else if c = '\x7b' then
        match skipWs rest with
        | '\x7d' :: more => some (PyVal.pydict [], more)
        | cs2 =>
          match parseMembers fuel cs2 with
          | some (kvs, r) => some (PyVal.pydict kvs, r)
          | Option.none => Option.none
      else Option.none

/-- Comma-separated array elements up to the closing bracket. -/
def parseElems : Nat → List Char → Option (List PyVal × List Char)
  | 0, _ => Option.none
  | Nat.succ fuel, cs =>
    match parseValue fuel cs with
    | Option.none => Option.none
    | some (v, rest) =>
      match skipWs rest with
      | ',' :: more =>
        match parseElems fuel more with
        | some (xs, fin) => some (v :: xs, fin)
        | Option.none => Option.none
      | ']' :: more => some ([v], more)
      | _ => Option.none

/-- Comma-separated object members up to the closing brace. -/
def parseMembers : Nat → List Char → Option (List (String × PyVal) × List Char)
  | 0, _ => Option.none
  | Nat.succ fuel, cs =>
    match skipWs cs with
    | '"' :: rest =>
      match parseStringChars rest with
      | Option.none => Option.none
      | some (key, afterKey) =>
        match skipWs afterKey with
        | ':' :: afterColon =>
          match parseValue fuel afterColon with
          | Option.none => Option.none
          | some (v, rest2) =>
            match skipWs rest2 with
            | ',' :: more =>
              match parseMembers fuel more with
              | some (kvs, fin) => some ((String.mk key, v) :: kvs, fin)
              | Option.none => Option.none
            | '\x7d' :: more => some ([(String.mk key, v)], more)
            | _ => Option.none
        | _ => Option.none
    | _ => Option.none
end

/-- Model of json.loads: parse exactly one JSON value, allowing surrounding
whitespace and rejecting trailing data, on the fragment handled by
parseValue.  Failure carries the diagnostic message. -/
def json_loads (s : String) : Except String PyVal :=
  match parseValue (2 * s.length + 2) s.toList with
  | some (v, rest) =>
    match skipWs rest with
    | [] => Except.ok v
    | _ => Except.error "Extra data"
  | Option.none => Except.error "Expecting value"

/-- A Python function object: its metadata (the dunder name and docstring
read by introspection tools) together with its behavior. -/
structure PyFunc (α : Type) where
  name : String
  doc : String
  call : α

/-- functools.wraps: the wrapper body is exposed under the wrapped function
metadata; name and docstring are copied from the inner handler. -/
def pyWraps {α β : Type} (inner : PyFunc α) (body : β) : PyFunc β :=
  { name := inner.name, doc := inner.doc, call := body }

/-- An invocation event: a string-keyed mapping, as supplied by the runtime. -/
abbrev Event := List (String × PyVal)

/-- A handler in decorated position: applied to (event, context) it either
returns a value or raises. -/
abbrev PyHandler := Event → Context → PyResult

/-- Model of applying a Python function declared with the two positional
parameters event and context to an empty argument list: the call raises
TypeError before the function body runs, whatever that body is.  This is
exactly the call the async_handler wrapper makes. -/
def callWithNoArgs (_handler : PyHandler) : PyResult :=
  PyResult.exn "TypeError"
    "handler missing 2 required positional arguments: event and context"

/-- Wrapper built by async_handler (source lines 63 to 67): it obtains the
event loop and evaluates run_until_complete on the result of calling the
wrapped handler with NO arguments, so event and context are never forwarded.
Since the documented usage wraps a two-parameter handler, that zero-argument
call raises TypeError; run_until_complete is never reached and the exception
propagates to the caller. -/
def async_handler_wrapper (handler : PyHandler) (_event : Event)
    (_context : Context) : PyResult :=
  match callWithNoArgs handler with
  | PyResult.exn k m => PyResult.exn k m
  | PyResult.val v => PyResult.val v

/-- Wrapper built by the origin branch of cors (source lines 93 to 99): run
the handler, call setdefault of headers with a fresh empty dict on the
response, then assign the Access-Control-Allow-Origin entry of that headers
object (the response holds the same object, so the assignment is visible in
the returned response).  A response without a setdefault attribute raises
AttributeError; a headers value that rejects item assignment raises
TypeError. -/
def cors_wrapper (origin : String) (handler : PyHandler) (event : Event)
    (context : Context) : PyResult :=
  match handler event context with
  | PyResult.exn k m => PyResult.exn k m
  | PyResult.val (PyVal.pydict response) =>
    match pySetdefault response "headers" (PyVal.pydict []) with
    | (PyVal.pydict headers, response1) =>
      PyResult.val (PyVal.pydict (pySet response1 "headers"
        (PyVal.pydict (pySet headers "Access-Control-Allow-Origin"
          (PyVal.pystr origin)))))
    | _ => PyResult.exn "TypeError" "object does not support item assignment"
  | PyResult.val _ =>
    PyResult.exn "AttributeError" "object has no attribute setdefault"

/-- The configurator wrapper_wrapper returned when cors is applied to an
origin string: it decorates a handler with cors_wrapper for that origin,
under the handler metadata via functools.wraps. -/
def cors_wrapper_wrapper (origin : String) (handler : PyFunc PyHandler) :
    PyFunc PyHandler :=
  pyWraps handler (cors_wrapper origin handler.call)

/-- cors (source lines 92 to 105): dual-mode dispatch on its one argument.
A string selects the configurator for that origin; anything else is taken as
a handler, and the source applies cors of the star origin to it (that
recursive call is unfolded one step here, since cors of an origin string is
its configurator). -/
def cors (handler_or_origin : String ⊕ PyFunc PyHandler) :
    (PyFunc PyHandler → PyFunc PyHandler) ⊕ PyFunc PyHandler :=
  match handler_or_origin with
  | Sum.inl origin => Sum.inl (cors_wrapper_wrapper origin)
  | Sum.inr handler => Sum.inr (cors_wrapper_wrapper "*" handler)

/-- Whether a character list occurs as a contiguous run inside another
(Python substring membership). -/
def charsHaveSub (needle : List Char) (hay : List Char) : Bool :=
  match hay with
  | [] => needle.isEmpty
  | _ :: rest => (dropLit needle hay).isSome || charsHaveSub needle rest

/-- Whether a value is the Python string body (element membership compares
with equality, and equality with a non-string is false). -/
def isStrBody : PyVal → Bool
  | PyVal.pystr s => s = "body"
  | _ => false

/-- Python membership test of the string body in a response value: a key test
on dicts, a substring test on strings, an element test on lists and sets; on
values that are not containers the membership operator raises TypeError,
rendered here as Option.none. -/
def containsBody : PyVal → Option Bool
  | PyVal.pydict kvs => some ((pyGet kvs "body").isSome)
  | PyVal.pystr s => some (charsHaveSub ['b', 'o', 'd', 'y'] s.toList)
  | PyVal.pylist xs => some (xs.any isStrBody)
  | PyVal.pyset xs => some (xs.any isStrBody)
  | _ => Option.none

/-- Message of the TypeError raised by subscripting the json.dumps function
object itself, which is what the serialization line of dump_json_body does
instead of calling json.dumps on the body value. -/
def dumps_subscript_msg : String := "function object is not subscriptable"

/-- Wrapper built by dump_json_body (source lines 126 to 133): run the
handler; when the response contains a body key, the serialization line
subscripts the json.dumps function object, which raises TypeError inside the
try block, so the except branch returns a 500 response carrying that message
and the serialized body is never produced.  Without a body key the response
is returned unchanged; a response on which the membership test is undefined
raises. -/
def dump_json_body_wrapper (handler : PyHandler) (event : Event)
    (context : Context) : PyResult :=
  match handler event context with
  | PyResult.exn k m => PyResult.exn k m
  | PyResult.val response =>
    match containsBody response with
    | Option.none => PyResult.exn "TypeError" "argument is not a container"
    | some false => PyResult.val response
    | some true =>
      PyResult.val (PyVal.pydict
        [("statusCode", PyVal.pyint 500),
         ("body", PyVal.pystr dumps_subscript_msg)])

/-- dump_json_body (source lines 108 to 134): the decorator defines wrapper
under functools.wraps, but its body ends without a return statement, so the
decorator itself returns None rather than the wrapper.  The wrapper body it
defines and drops is modelled separately as dump_json_body_wrapper. -/
def dump_json_body (_handler : PyFunc PyHandler) : Option (PyFunc PyHandler) :=
  Option.none

/-- Message of the exception that replaces the intended 500 response in
json_http_resp: its except branch evaluates the bare name body while
building the 500 dict, but body was never assigned because its assignment is
what raised, so the name lookup raises UnboundLocalError. -/
def unbound_body_msg : String := "local variable body referenced before assignment"

/-- Wrapper built by json_http_resp (source lines 156 to 164): run the
handler and serialize its whole return value with json.dumps; on success
return a 200 response with the serialized string as body; when json.dumps
raises, the except branch itself raises UnboundLocalError (see
unbound_body_msg) and that exception propagates instead of any 500
response. -/
def json_http_resp_wrapper (handler : PyHandler) (event : Event)
    (context : Context) : PyResult :=
  match handler event context with
  | PyResult.exn k m => PyResult.exn k m
  | PyResult.val response =>
    match json_dumps response with
    | Except.ok body =>
      PyResult.val (PyVal.pydict
        [("statusCode", PyVal.pyint 200), ("body", PyVal.pystr body)])
    | Except.error _ => PyResult.exn "UnboundLocalError" unbound_body_msg

/-- json_http_resp (source lines 141 to 166): returns the wrapper under the
handler metadata. -/
def json_http_resp (handler : PyFunc PyHandler) : PyFunc PyHandler :=
  pyWraps handler (json_http_resp_wrapper handler.call)

/-- Wrapper built by load_json_body (source lines 185 to 192): when the
event has a body entry that is a string, parse it with json.loads; on
success store the parsed value back into the event under body and delegate;
on any parse error return the fixed 400 response without calling the
handler.  When body is absent or not a string, delegate with the event as
is. -/
def load_json_body_wrapper (handler : PyHandler) (event : Event)
    (context : Context) : PyResult :=
  match pyGet event "body" with
  | some (PyVal.pystr s) =>
    match json_loads s with
    | Except.ok v => handler (pySet event "body" v) context
    | Except.error _ =>
      PyResult.val (PyVal.pydict
        [("statusCode", PyVal.pyint 400), ("body", PyVal.pystr "BAD REQUEST")])
  | _ => handler event context

/-- load_json_body (source lines 169 to 194): returns the wrapper under the
handler metadata. -/
def load_json_body (handler : PyFunc PyHandler) : PyFunc PyHandler :=
  pyWraps handler (load_json_body_wrapper handler.call)

/-- async_handler (source lines 50 to 68): returns the wrapper under the
handler metadata. -/
def async_handler (handler : PyFunc PyHandler) : PyFunc PyHandler :=
  pyWraps handler (async_handler_wrapper handler.call)

/-- Wrapper built by no_retry_on_failure (source lines 205 to 213), with the
seen_request_ids set passed explicitly (in the source it is a closure
variable created empty at decoration time): a repeated aws_request_id raises
RuntimeError and leaves the set untouched; otherwise the id is added first
and then the handler is called, so the call returns the handler result
together with the grown set. -/
def no_retry_wrapper (handler : PyHandler) (seen : List String) (event : Event)
    (context : Context) : PyResult × List String :=
  if seen.contains context.aws_request_id then
    (PyResult.exn "RuntimeError"
      ("Retry attempt on request id " ++ context.aws_request_id ++ " detected."),
     seen)
  else
    (handler event context, seen ++ [context.aws_request_id])

/-- no_retry_on_failure (source lines 197 to 215): returns the wrapper under
the handler metadata; the seen set starts empty. -/
def no_retry_on_failure (handler : PyFunc PyHandler) :
    PyFunc (List String → Event → Context → PyResult × List String) :=
  pyWraps handler (no_retry_wrapper handler.call)

theorem pyGet_pySet_self (kvs : List (String × PyVal)) (key : String) (v : PyVal) :
    pyGet (pySet kvs key v) key = some v := by
  induction kvs with
  | nil => simp [pySet, pyGet]
  | cons kv rest ih =>
    obtain ⟨k, w⟩ := kv
    by_cases h : k = key
    · simp [pySet, pyGet, h]
    · simp [pySet, pyGet, h, ih]

theorem pyGet_pySet_ne (kvs : List (String × PyVal)) (key key2 : String) (v : PyVal)
    (h : key ≠ key2) : pyGet (pySet kvs key v) key2 = pyGet kvs key2 := by
  induction kvs with
  | nil => simp [pySet, pyGet, h]
  | cons kv rest ih =>
    obtain ⟨k, w⟩ := kv
    by_cases hk : k = key
    · subst hk; simp [pySet, pyGet, h]
    · simp [pySet, pyGet, hk, ih]

theorem pyGet_append_some (l1 l2 : List (String × PyVal)) (key : String) (v : PyVal)
    (h : pyGet l1 key = some v) : pyGet (l1 ++ l2) key = some v := by
  induction l1 with
  | nil => simp [pyGet] at h
  | cons kv rest ih =>
    obtain ⟨k, w⟩ := kv
    by_cases hk : k = key
    · simp [pyGet, hk] at h ⊢; exact h
    · simp [pyGet, hk] at h ⊢; exact ih h

theorem pyGet_append_none (l1 l2 : List (String × PyVal)) (key : String)
    (h : pyGet l1 key = Option.none) : pyGet (l1 ++ l2) key = pyGet l2 key := by
  induction l1 with
  | nil => simp [pyGet]
  | cons kv rest ih =>
    obtain ⟨k, w⟩ := kv
    by_cases hk : k = key
    · simp [pyGet, hk] at h
    · simp [pyGet, hk] at h ⊢; exact ih h

/-- Claim C5: for every handler H and every string S that json.loads rejects,
the load_json_body wrapper on an event whose body entry is S returns exactly
the fixed response with statusCode 400 and body BAD REQUEST; the result is
the same for every H, so the wrapped handler is never invoked on this
path. -/
theorem load_json_body_rejects_invalid (H : PyHandler) (event : Event)
    (context : Context) (s : String) (msg : String)
    (hbody : pyGet event "body" = some (PyVal.pystr s))
    (hparse : json_loads s = Except.error msg) :
    load_json_body_wrapper H event context =
      PyResult.val (PyVal.pydict
        [("statusCode", PyVal.pyint 400), ("body", PyVal.pystr "BAD REQUEST")]) := by
  simp [load_json_body_wrapper, hbody, hparse]

/-- Witness for C5: the event whose body is the string bad, which json.loads
rejects, is answered with the 400 response under an arbitrary concrete
handler. -/
theorem load_json_body_rejects_invalid_witness :
    pyGet [("body", PyVal.pystr "bad")] "body" = some (PyVal.pystr "bad") ∧
    json_loads "bad" = Except.error "Expecting value" ∧
    load_json_body_wrapper (fun _ _ => PyResult.val (PyVal.pystr "ran"))
        [("body", PyVal.pystr "bad")] (Context.mk "req-1") =
      PyResult.val (PyVal.pydict
        [("statusCode", PyVal.pyint 400), ("body", PyVal.pystr "BAD REQUEST")]) :=
  ⟨rfl, rfl,
    load_json_body_rejects_invalid (fun _ _ => PyResult.val (PyVal.pystr "ran"))
      [("body", PyVal.pystr "bad")] (Context.mk "req-1") "bad" "Expecting value" rfl rfl⟩

/-- Claim C6: when the body entry of the event is a string S that json.loads
parses to V, the load_json_body wrapper stores V back under body and
delegates, so it returns the handler result on the updated event; the
handler that echoes the body of its event therefore returns V itself; and on
an event whose body entry is absent or not a string the wrapper delegates
with the event unchanged. -/
theorem load_json_body_parses_valid (H : PyHandler) (event : Event)
    (context : Context) (s : String) (v : PyVal)
    (hbody : pyGet event "body" = some (PyVal.pystr s))
    (hparse : json_loads s = Except.ok v) :
    load_json_body_wrapper H event context = H (pySet event "body" v) context ∧
    load_json_body_wrapper
        (fun e _ => PyResult.val ((pyGet e "body").getD PyVal.pynone))
        [("body", PyVal.pystr s)] context = PyResult.val v ∧
    (∀ event2 : Event, (∀ s2, pyGet event2 "body" ≠ some (PyVal.pystr s2)) →
       load_json_body_wrapper H event2 context = H event2 context) := by
  refine ⟨?_, ?_, ?_⟩
  · simp [load_json_body_wrapper, hbody, hparse]
  · unfold load_json_body_wrapper
    simp [pyGet, hparse, pySet]
  · intro event2 hne
    unfold load_json_body_wrapper
    cases hb : pyGet event2 "body" with
    | none => rfl
    | some w =>
      cases w with
      | pynone => rfl
      | pybool b => rfl
      | pyint n => rfl
      | pystr s2 => exact absurd hb (hne s2)
      | pylist xs => rfl
      | pydict kvs => rfl
      | pyset xs => rfl

/-- Witness for C6: the body string holding a one-entry JSON object is parsed
and handed to the handler, and the body-echoing handler returns the parsed
dict. -/
theorem load_json_body_parses_valid_witness :
    pyGet [("body", PyVal.pystr "\x7b\"name\": \"sam\"\x7d")] "body" =
      some (PyVal.pystr "\x7b\"name\": \"sam\"\x7d") ∧
    json_loads "\x7b\"name\": \"sam\"\x7d" =
      Except.ok (PyVal.pydict [("name", PyVal.pystr "sam")]) ∧
    load_json_body_wrapper
        (fun e _ => PyResult.val ((pyGet e "body").getD PyVal.pynone))
        [("body", PyVal.pystr "\x7b\"name\": \"sam\"\x7d")] (Context.mk "req-1") =
      PyResult.val (PyVal.pydict [("name", PyVal.pystr "sam")]) :=
  ⟨rfl, rfl,
    (load_json_body_parses_valid
      (fun e _ => PyResult.val ((pyGet e "body").getD PyVal.pynone))
      [("body", PyVal.pystr "\x7b\"name\": \"sam\"\x7d")] (Context.mk "req-1")
      "\x7b\"name\": \"sam\"\x7d" (PyVal.pydict [("name", PyVal.pystr "sam")])
      rfl rfl).2.1⟩

/-- Lookup of one header entry of a response: the value stored under that
key in the headers dict of the response, when the response has one. -/
def headersLookup (response : List (String × PyVal)) (key : String) : Option PyVal :=
  match pyGet response "headers" with
  | some (PyVal.pydict hs) => pyGet hs key
  | _ => Option.none

/-- Claim C7: for every origin O and handler whose response is a mapping
(with its headers entry absent or itself a mapping), the cors wrapper
returns that response with a headers mapping present - created empty when
absent - whose Access-Control-Allow-Origin entry equals O, overwriting any
prior value; all other response entries and all other header entries are
untouched. -/
theorem cors_sets_allow_origin (origin : String) (H : PyHandler) (event : Event)
    (context : Context) (response : List (String × PyVal))
    (hresp : H event context = PyResult.val (PyVal.pydict response))
    (hhdr : pyGet response "headers" = Option.none ∨
            ∃ hs, pyGet response "headers" = some (PyVal.pydict hs)) :
    ∃ response2 headers2,
      cors_wrapper origin H event context = PyResult.val (PyVal.pydict response2) ∧
      pyGet response2 "headers" = some (PyVal.pydict headers2) ∧
      pyGet headers2 "Access-Control-Allow-Origin" = some (PyVal.pystr origin) ∧
      (∀ k, k ≠ "headers" → pyGet response2 k = pyGet response k) ∧
      (∀ k, k ≠ "Access-Control-Allow-Origin" →
         pyGet headers2 k = headersLookup response k) := by
  rcases hhdr with hnone | ⟨hs, hsome⟩
  · refine ⟨pySet (response ++ [("headers", PyVal.pydict [])]) "headers"
        (PyVal.pydict [("Access-Control-Allow-Origin", PyVal.pystr origin)]),
      [("Access-Control-Allow-Origin", PyVal.pystr origin)], ?_, ?_, ?_, ?_, ?_⟩
    · simp [cors_wrapper, hresp, pySetdefault, hnone, pySet]
    · exact pyGet_pySet_self _ _ _
    · simp [pyGet]
    · intro k hk
      rw [pyGet_pySet_ne _ _ _ _ (Ne.symm hk)]
      cases hg : pyGet response k with
      | none =>
        rw [pyGet_append_none _ _ _ hg]
        simp [pyGet, Ne.symm hk]
      | some v => exact pyGet_append_some _ _ _ _ hg
    · intro k hk
      simp [pyGet, Ne.symm hk, headersLookup, hnone]
  · refine ⟨pySet response "headers"
        (PyVal.pydict (pySet hs "Access-Control-Allow-Origin" (PyVal.pystr origin))),
      pySet hs "Access-Control-Allow-Origin" (PyVal.pystr origin), ?_, ?_, ?_, ?_, ?_⟩
    · simp [cors_wrapper, hresp, pySetdefault, hsome]
    · exact pyGet_pySet_self _ _ _
    · exact pyGet_pySet_self _ _ _
    · intro k hk
      exact pyGet_pySet_ne _ _ _ _ (Ne.symm hk)
    · intro k hk
      rw [pyGet_pySet_ne _ _ _ _ (Ne.symm hk)]
      simp [headersLookup, hsome]

/-- Witness for C7: the docstring handler returning a body-only response,
wrapped for a concrete origin, gains a headers mapping carrying that
origin. -/
theorem cors_sets_allow_origin_witness :
    (fun (_ : Event) (_ : Context) =>
        PyResult.val (PyVal.pydict [("body", PyVal.pystr "foobar")])) [] (Context.mk "req-1") =
      PyResult.val (PyVal.pydict [("body", PyVal.pystr "foobar")]) ∧
    pyGet [("body", PyVal.pystr "foobar")] "headers" = Option.none ∧
    (∃ response2 headers2,
      cors_wrapper "https://example.com"
          (fun _ _ => PyResult.val (PyVal.pydict [("body", PyVal.pystr "foobar")]))
          [] (Context.mk "req-1") = PyResult.val (PyVal.pydict response2) ∧
      pyGet response2 "headers" = some (PyVal.pydict headers2) ∧
      pyGet headers2 "Access-Control-Allow-Origin" =
        some (PyVal.pystr "https://example.com") ∧
      (∀ k, k ≠ "headers" →
         pyGet response2 k = pyGet [("body", PyVal.pystr "foobar")] k) ∧
      (∀ k, k ≠ "Access-Control-Allow-Origin" →
         pyGet headers2 k = headersLookup [("body", PyVal.pystr "foobar")] k)) :=
  ⟨rfl, rfl,
    cors_sets_allow_origin "https://example.com"
      (fun _ _ => PyResult.val (PyVal.pydict [("body", PyVal.pystr "foobar")]))
      [] (Context.mk "req-1") [("body", PyVal.pystr "foobar")] rfl (Or.inl rfl)⟩

/-- Claim C8: cors applied directly to a handler takes the non-string branch
of its dual-mode dispatch and yields exactly the wrapped handler that the
configurator obtained from cors of the star origin produces - the same
function object, hence extensionally the same - and its call behavior is the
cors wrapper for the star origin. -/
theorem cors_direct_matches_star (h : PyFunc PyHandler) (event : Event)
    (context : Context) :
    ∃ configurator : PyFunc PyHandler → PyFunc PyHandler,
      cors (Sum.inl "*") = Sum.inl configurator ∧
      cors (Sum.inr h) = Sum.inr (configurator h) ∧
      (configurator h).call event context = cors_wrapper "*" h.call event context :=
  ⟨cors_wrapper_wrapper "*", rfl, rfl, rfl⟩

/-- Claim C9: starting from the empty seen set created at decoration time,
the first call with request identifier I delegates - its outcome is exactly
the handler outcome - and records I; the second call with the same
identifier raises RuntimeError, and its outcome is the same whatever handler
is wrapped, so the wrapped handler runs exactly once across the two calls. -/
theorem no_retry_blocks_second_call (H : PyHandler) (event1 event2 : Event)
    (context : Context) :
    (no_retry_wrapper H [] event1 context).1 = H event1 context ∧
    (no_retry_wrapper H [] event1 context).2 = [context.aws_request_id] ∧
    (no_retry_wrapper H (no_retry_wrapper H [] event1 context).2 event2 context).1 =
      PyResult.exn "RuntimeError"
        ("Retry attempt on request id " ++ context.aws_request_id ++ " detected.") ∧
    (∀ H2 : PyHandler,
       (no_retry_wrapper H2 (no_retry_wrapper H [] event1 context).2 event2 context).1 =
         PyResult.exn "RuntimeError"
           ("Retry attempt on request id " ++ context.aws_request_id ++ " detected.")) := by
  refine ⟨?_, ?_, ?_, ?_⟩ <;> simp [no_retry_wrapper]

/-- Claim C10: one guarded call from any duplicate-free seen set: when the
identifier is already in the set the call leaves the set unchanged and
raises RuntimeError; when it is not, the set grows by exactly that one
identifier; in both cases the old set is a sublist of the new one and the
new set stays duplicate-free, so across invocations the set is monotonically
non-decreasing and each identifier is inserted at most once. -/
theorem no_retry_seen_set_invariant (H : PyHandler) (seen : List String)
    (event : Event) (context : Context)
    (hnd : seen.Nodup) :
    List.Sublist seen (no_retry_wrapper H seen event context).2 ∧
    (no_retry_wrapper H seen event context).2.Nodup ∧
    (context.aws_request_id ∈ seen →
       (no_retry_wrapper H seen event context).2 = seen ∧
       (no_retry_wrapper H seen event context).1 =
         PyResult.exn "RuntimeError"
           ("Retry attempt on request id " ++ context.aws_request_id ++ " detected.")) ∧
    (context.aws_request_id ∉ seen →
       (no_retry_wrapper H seen event context).2 = seen ++ [context.aws_request_id] ∧
       (no_retry_wrapper H seen event context).1 = H event context) := by
  by_cases hmem : context.aws_request_id ∈ seen
  · refine ⟨?_, ?_, ?_, ?_⟩
    · have h2 : (no_retry_wrapper H seen event context).2 = seen := by
        simp [no_retry_wrapper, hmem]
      rw [h2]
    · have h2 : (no_retry_wrapper H seen event context).2 = seen := by
        simp [no_retry_wrapper, hmem]
      rw [h2]; exact hnd
    · intro _
      constructor <;> simp [no_retry_wrapper, hmem]
    · intro hno
      exact absurd hmem hno
  · refine ⟨?_, ?_, ?_, ?_⟩
    · have h2 : (no_retry_wrapper H seen event context).2 =
          seen ++ [context.aws_request_id] := by
        simp [no_retry_wrapper, hmem]
      rw [h2]; exact List.sublist_append_left seen _
    · have h2 : (no_retry_wrapper H seen event context).2 =
          seen ++ [context.aws_request_id] := by
        simp [no_retry_wrapper, hmem]
      rw [h2]; simp [List.nodup_append, hnd, hmem]
    · intro hyes
      exact absurd hyes hmem
    · intro _
      constructor <;> simp [no_retry_wrapper, hmem]

/-- Witness for C10: one call on the singleton set holding alpha with a fresh
identifier beta grows the set to alpha then beta and delegates. -/
theorem no_retry_seen_set_invariant_witness :
    (["alpha"] : List String).Nodup ∧
    (List.Sublist ["alpha"]
        (no_retry_wrapper (fun _ _ => PyResult.val PyVal.pynone) ["alpha"] []
          (Context.mk "beta")).2 ∧
     (no_retry_wrapper (fun _ _ => PyResult.val PyVal.pynone) ["alpha"] []
          (Context.mk "beta")).2.Nodup ∧
     ((Context.mk "beta").aws_request_id ∈ (["alpha"] : List String) →
        (no_retry_wrapper (fun _ _ => PyResult.val PyVal.pynone) ["alpha"] []
            (Context.mk "beta")).2 = ["alpha"] ∧
        (no_retry_wrapper (fun _ _ => PyResult.val PyVal.pynone) ["alpha"] []
            (Context.mk "beta")).1 =
          PyResult.exn "RuntimeError"
            ("Retry attempt on request id " ++ (Context.mk "beta").aws_request_id ++
              " detected.")) ∧
     ((Context.mk "beta").aws_request_id ∉ (["alpha"] : List String) →
        (no_retry_wrapper (fun _ _ => PyResult.val PyVal.pynone) ["alpha"] []
            (Context.mk "beta")).2 = ["alpha"] ++ [(Context.mk "beta").aws_request_id] ∧
        (no_retry_wrapper (fun _ _ => PyResult.val PyVal.pynone) ["alpha"] []
            (Context.mk "beta")).1 =
          (fun (_ : Event) (_ : Context) => PyResult.val PyVal.pynone) []
            (Context.mk "beta"))) :=
  ⟨by simp,
    no_retry_seen_set_invariant (fun _ _ => PyResult.val PyVal.pynone) ["alpha"] []
      (Context.mk "beta") (by simp)⟩

/-- Claim C1: the success half of the claim holds - a handler return value
that json.dumps serializes to S yields the 200 envelope with body S - but
the failure half does not: on a return value that json.dumps rejects, the
wrapper raises UnboundLocalError (its except branch reads the never-assigned
name body) and never returns any mapping, let alone one with statusCode
500. -/
theorem json_http_resp_paths (event : Event) (context : Context)
    (good bad : PyVal) (s e : String)
    (hgood : json_dumps good = Except.ok s)
    (hbad : json_dumps bad = Except.error e) :
    json_http_resp_wrapper (fun _ _ => PyResult.val good) event context =
      PyResult.val (PyVal.pydict
        [("statusCode", PyVal.pyint 200), ("body", PyVal.pystr s)]) ∧
    json_http_resp_wrapper (fun _ _ => PyResult.val bad) event context =
      PyResult.exn "UnboundLocalError" unbound_body_msg ∧
    (∀ v, json_http_resp_wrapper (fun _ _ => PyResult.val bad) event context ≠
       PyResult.val v) := by
  refine ⟨?_, ?_, ?_⟩
  · simp [json_http_resp_wrapper, hgood]
  · simp [json_http_resp_wrapper, hbad]
  · intro v h
    simp [json_http_resp_wrapper, hbad] at h

/-- Witness for C1: the docstring handler gets the 200 envelope; a handler
returning a set makes the wrapper raise UnboundLocalError. -/
theorem json_http_resp_paths_witness :
    json_dumps (PyVal.pydict [("hello", PyVal.pystr "world")]) =
      Except.ok "\x7b\"hello\": \"world\"\x7d" ∧
    json_dumps (PyVal.pyset [PyVal.pyint 1]) =
      Except.error "Object of type set is not JSON serializable" ∧
    (json_http_resp_wrapper
        (fun _ _ => PyResult.val (PyVal.pydict [("hello", PyVal.pystr "world")]))
        [] (Context.mk "req-1") =
      PyResult.val (PyVal.pydict
        [("statusCode", PyVal.pyint 200),
         ("body", PyVal.pystr "\x7b\"hello\": \"world\"\x7d")]) ∧
     json_http_resp_wrapper (fun _ _ => PyResult.val (PyVal.pyset [PyVal.pyint 1]))
        [] (Context.mk "req-1") =
      PyResult.exn "UnboundLocalError" unbound_body_msg ∧
     (∀ v, json_http_resp_wrapper
        (fun _ _ => PyResult.val (PyVal.pyset [PyVal.pyint 1]))
        [] (Context.mk "req-1") ≠ PyResult.val v)) :=
  ⟨rfl, rfl,
    json_http_resp_paths [] (Context.mk "req-1")
      (PyVal.pydict [("hello", PyVal.pystr "world")]) (PyVal.pyset [PyVal.pyint 1])
      "\x7b\"hello\": \"world\"\x7d" "Object of type set is not JSON serializable"
      rfl rfl⟩

/-- Claim C2: refuted by the code on its success half.  The decorator itself
returns None - its body never returns the wrapper it defines - and the
wrapper it defines can never serialize anyway: whenever the response carries
a body key, the serialization line subscripts the json.dumps function object,
raising TypeError inside the try block, so the wrapper answers with the 500
error response for every such handler and the success branch of the claim is
unreachable. -/
theorem dump_json_body_never_serializes (H : PyHandler) (event : Event)
    (context : Context) (response : List (String × PyVal)) (name doc : String)
    (hresp : H event context = PyResult.val (PyVal.pydict response))
    (hbody : (pyGet response "body").isSome = true) :
    dump_json_body (PyFunc.mk name doc H) = Option.none ∧
    dump_json_body_wrapper H event context =
      PyResult.val (PyVal.pydict
        [("statusCode", PyVal.pyint 500),
         ("body", PyVal.pystr dumps_subscript_msg)]) := by
  refine ⟨rfl, ?_⟩
  simp [dump_json_body_wrapper, hresp, containsBody, hbody]

/-- Witness for C2: the docstring handler of dump_json_body - a 200 response
whose body is a small dict - is answered with the 500 subscripting error, and
decorating it yields None. -/
theorem dump_json_body_never_serializes_witness :
    (fun (_ : Event) (_ : Context) => PyResult.val (PyVal.pydict
        [("statusCode", PyVal.pyint 200),
         ("body", PyVal.pydict [("hello", PyVal.pystr "world")])])) [] (Context.mk "req-1") =
      PyResult.val (PyVal.pydict
        [("statusCode", PyVal.pyint 200),
         ("body", PyVal.pydict [("hello", PyVal.pystr "world")])]) ∧
    (pyGet [("statusCode", PyVal.pyint 200),
            ("body", PyVal.pydict [("hello", PyVal.pystr "world")])] "body").isSome = true ∧
    (dump_json_body (PyFunc.mk "handler" "returns a JSON body"
        (fun _ _ => PyResult.val (PyVal.pydict
          [("statusCode", PyVal.pyint 200),
           ("body", PyVal.pydict [("hello", PyVal.pystr "world")])]))) = Option.none ∧
     dump_json_body_wrapper
        (fun _ _ => PyResult.val (PyVal.pydict
          [("statusCode", PyVal.pyint 200),
           ("body", PyVal.pydict [("hello", PyVal.pystr "world")])]))
        [] (Context.mk "req-1") =
      PyResult.val (PyVal.pydict
        [("statusCode", PyVal.pyint 500),
         ("body", PyVal.pystr dumps_subscript_msg)])) :=
  ⟨rfl, rfl,
    dump_json_body_never_serializes
      (fun _ _ => PyResult.val (PyVal.pydict
        [("statusCode", PyVal.pyint 200),
         ("body", PyVal.pydict [("hello", PyVal.pystr "world")])]))
      [] (Context.mk "req-1")
      [("statusCode", PyVal.pyint 200),
       ("body", PyVal.pydict [("hello", PyVal.pystr "world")])]
      "handler" "returns a JSON body" rfl rfl⟩

/-- Claim C3: refuted by the code at dump_json_body.  The other five
decorators return a wrapper carrying the wrapped handler name and docstring
(functools.wraps), and the stack of cors over json_http_resp stays callable,
producing both the 200 envelope with serialized body and the CORS header;
but dump_json_body applied to any handler returns None - its body never
returns the wrapper - so that decorated handler is not callable at all. -/
theorem decorators_metadata_and_stacking (h : PyFunc PyHandler) (origin : String)
    (event : Event) (context : Context) (v : PyVal) (s : String)
    (hcall : h.call = fun _ _ => PyResult.val v)
    (hser : json_dumps v = Except.ok s) :
    (json_http_resp h).name = h.name ∧ (json_http_resp h).doc = h.doc ∧
    (load_json_body h).name = h.name ∧ (load_json_body h).doc = h.doc ∧
    (async_handler h).name = h.name ∧ (async_handler h).doc = h.doc ∧
    (cors_wrapper_wrapper origin h).name = h.name ∧
    (cors_wrapper_wrapper origin h).doc = h.doc ∧
    (no_retry_on_failure h).name = h.name ∧ (no_retry_on_failure h).doc = h.doc ∧
    (cors_wrapper_wrapper origin (json_http_resp h)).call event context =
      PyResult.val (PyVal.pydict
        [("statusCode", PyVal.pyint 200), ("body", PyVal.pystr s),
         ("headers", PyVal.pydict
           [("Access-Control-Allow-Origin", PyVal.pystr origin)])]) ∧
    dump_json_body h = Option.none := by
  refine ⟨rfl, rfl, rfl, rfl, rfl, rfl, rfl, rfl, rfl, rfl, ?_, rfl⟩
  simp [cors_wrapper_wrapper, pyWraps, cors_wrapper, json_http_resp,
        json_http_resp_wrapper, hcall, hser, pySetdefault, pyGet, pySet]

/-- Witness for C3: a concrete named and documented handler keeps its
metadata under the five working decorators, the cors over json_http_resp
stack produces the combined response, and dump_json_body returns None. -/
theorem decorators_metadata_and_stacking_witness :
    (PyFunc.mk "my_handler" "my docs"
        (fun (_ : Event) (_ : Context) =>
          PyResult.val (PyVal.pydict [("hello", PyVal.pystr "world")]))).call =
      (fun _ _ => PyResult.val (PyVal.pydict [("hello", PyVal.pystr "world")])) ∧
    json_dumps (PyVal.pydict [("hello", PyVal.pystr "world")]) =
      Except.ok "\x7b\"hello\": \"world\"\x7d" ∧
    ((json_http_resp (PyFunc.mk "my_handler" "my docs"
        (fun _ _ => PyResult.val (PyVal.pydict [("hello", PyVal.pystr "world")])))).name =
      "my_handler" ∧
     (cors_wrapper_wrapper "*" (json_http_resp (PyFunc.mk "my_handler" "my docs"
        (fun _ _ => PyResult.val (PyVal.pydict [("hello", PyVal.pystr "world")]))))).call
        [] (Context.mk "req-1") =
      PyResult.val (PyVal.pydict
        [("statusCode", PyVal.pyint 200),
         ("body", PyVal.pystr "\x7b\"hello\": \"world\"\x7d"),
         ("headers", PyVal.pydict
           [("Access-Control-Allow-Origin", PyVal.pystr "*")])]) ∧
     dump_json_body (PyFunc.mk "my_handler" "my docs"
        (fun _ _ => PyResult.val (PyVal.pydict [("hello", PyVal.pystr "world")]))) =
      Option.none) :=
  ⟨rfl, rfl, by
    have h := decorators_metadata_and_stacking
      (PyFunc.mk "my_handler" "my docs"
        (fun _ _ => PyResult.val (PyVal.pydict [("hello", PyVal.pystr "world")])))
      "*" [] (Context.mk "req-1") (PyVal.pydict [("hello", PyVal.pystr "world")])
      "\x7b\"hello\": \"world\"\x7d" rfl rfl
    exact ⟨h.1, h.2.2.2.2.2.2.2.2.2.2.1, h.2.2.2.2.2.2.2.2.2.2.2⟩⟩

/-- Claim C4: refuted by the code.  The async_handler wrapper applies the
wrapped two-parameter handler to an empty argument list, so event and
context are never forwarded into the suspendable computation: for every
handler and every input the call raises TypeError, and the handler outcome
is never returned to the caller. -/
theorem async_handler_never_forwards (H : PyHandler) (event : Event)
    (context : Context) :
    async_handler_wrapper H event context =
      PyResult.exn "TypeError"
        "handler missing 2 required positional arguments: event and context" ∧
    (∀ v, async_handler_wrapper H event context ≠ PyResult.val v) := by
  refine ⟨rfl, ?_⟩
  intro v h
  simp [async_handler_wrapper, callWithNoArgs] at h

end LambdaDecorators
